import Mathlib

/-!
Shallow embedding of the gobang application core (src/src/app.rs): the
navigation/focus state machine, the event dispatcher, the connection
lifecycle manager and the record-page-cache pagination logic.

Components that live outside src (record table, error/help overlays,
connections and databases panels, tab bar, database pools) are modelled
from the spec; each such definition carries a doc comment starting with
"Modelled from the spec:".  Everything else is translated directly from
src/src/app.rs.
-/

set_option linter.unusedVariables false

namespace Gobang

/-- Abstract key event, already decoded by the external input layer. -/
abbrev Key := Nat

/-- EventState as imported from the components module: whether a component
consumed the event. -/
inductive EventState
  | Consumed
  | NotConsumed
deriving DecidableEq

/-- is_consumed (components module). -/
def EventState.is_consumed : EventState → Bool
  | .Consumed => true
  | .NotConsumed => false

/-- Focus (src/src/app.rs lines 21-25); constructor names kept verbatim,
including the source's spelling of the first one. -/
inductive Focus
  | DabataseList
  | Table
  | ConnectionList
deriving DecidableEq

/-- Modelled from the spec: the data-view tab (Records, Sql, Properties);
the TabComponent itself is outside src. -/
inductive Tab
  | Records
  | Sql
  | Properties
deriving DecidableEq

/-- Backend kind of a connection; the three pool constructors dispatched on
it (src/src/app.rs lines 142-154) are outside src and are abstracted by an
open-outcome parameter below. -/
inductive DbKind
  | mysql
  | postgres
  | sqlite
deriving DecidableEq

/-- A connection entry (config.conn): identifies the backend kind; the
connection-string parameters are irrelevant to the modelled behaviour. -/
structure Connection where
  kind : DbKind
deriving DecidableEq

/-- Adapter lifecycle event, used to state close-before-open ordering of
connection switches.  Adapters are identified by natural-number ids. -/
inductive LifeEvent
  | closed (a : Nat)
  | opened (a : Nat)
deriving DecidableEq

/-- A row-fetch request issued to Pool.get_records: database, table, offset
and optional filter, exactly the arguments at the call sites in app.rs. -/
structure FetchReq where
  database : String
  table : String
  offset : Nat
  filter : Option (List Key)
deriving DecidableEq

/-- Modelled from the spec: the record table component state
(components/record_table.rs and table.rs are outside src): accumulated
rows, header, end-of-data flag, selection, and the text filter.  The
filter input buffer is modelled as the list of keys typed into it. -/
structure RecordTable where
  headers : List String
  rows : List (List String)
  eod : Bool
  selected_row : Option Nat
  filter : List Key
  filter_focused : Bool
deriving DecidableEq

/-- Modelled from the spec: RecordTableComponent::reset — the full reset,
returning the record page cache to its initial state (rows emptied,
end-of-data cleared, selection cleared, filter cleared). -/
def RecordTable.initial : RecordTable :=
  { headers := [], rows := [], eod := false, selected_row := none,
    filter := [], filter_focused := false }

/-- The key bindings read by app.rs (config.key_config), with the source's
field names. -/
structure KeyConfig where
  enter : Key
  copy : Key
  focus_connections : Key
  focus_right : Key
  focus_left : Key
  extend_or_shorten_widget_width_to_left : Key
  extend_or_shorten_widget_width_to_right : Key

/-- Configuration of the embedding: the key bindings from app.rs, plus the
parts that live outside src, modelled from the spec: the fixed page size
RECORDS_LIMIT_PER_PAGE, the bindings consumed by each sub-component, the
backend's (always successful) get_records, and the adapter id / schema tree
produced by a successful connection switch. -/
structure Cfg where
  key_config : KeyConfig
  /-- Modelled from the spec: RECORDS_LIMIT_PER_PAGE, the fixed page size. -/
  limit : Nat
  /-- Modelled from the spec: binding that focuses the record-table filter. -/
  filterKey : Key
  /-- Modelled from the spec: the global tab-cycling binding. -/
  tabKey : Key
  /-- Modelled from the spec: binding that opens the help overlay. -/
  helpKey : Key
  /-- Modelled from the spec: record-table scroll bindings. -/
  scrollDown : Key
  scrollUp : Key
  /-- Modelled from the spec: keys consumed by the respective panels. -/
  connectionsKeys : List Key
  databasesKeys : List Key
  sqlKeys : List Key
  propertiesKeys : List Key
  /-- Modelled from the spec: Pool::get_records, returning (headers, rows);
  always successful in the unified step (failing switches are modelled
  separately by updateDatabasesE). -/
  getRecords : String → String → Nat → Option (List Key) → List String × List (List String)
  /-- Adapter id created by a successful switch in the unified step. -/
  newAdapter : Nat
  /-- Schema tree produced by a successful switch in the unified step. -/
  schemaOf : List (String × List String)

/-- The application state (struct App, src/src/app.rs lines 26-39).  Panel
components are represented by the parts of their state that app.rs reads:
the connections panel by its selected connection, the databases panel by
its selected table and tree-focus flag, the error and help overlays by a
shown flag. -/
structure App where
  focus : Focus
  tab : Tab
  record_table : RecordTable
  pool : Option Nat
  left_main_chunk_percentage : Nat
  error_shown : Bool
  help_shown : Bool
  selected_connection : Option Connection
  selected_table : Option (String × String)
  tree_focused : Bool
  schema_tree : List (String × List String)
  properties_for : Option (String × String)
deriving DecidableEq

/-- App::new (src/src/app.rs lines 42-57): Focus::ConnectionList, no pool,
left_main_chunk_percentage = 15, components in their initial state. -/
def App.initial : App :=
  { focus := Focus.ConnectionList, tab := Tab.Records,
    record_table := RecordTable.initial, pool := none,
    left_main_chunk_percentage := 15, error_shown := false,
    help_shown := false, selected_connection := none,
    selected_table := none, tree_focused := false,
    schema_tree := [], properties_for := none }

/-- Result of one dispatch: the EventState returned, the new application
state, and — for specification purposes — the row-fetch requests issued
and the adapter lifecycle events that occurred while handling the event. -/
structure Out where
  es : EventState
  app : App
  fetches : List FetchReq
  life : List LifeEvent
deriving DecidableEq

/-- update_databases (src/src/app.rs lines 137-163), with the fallible
parts that are outside src (conn.database_url() and the pool constructor,
both evaluated after the close; databases.update, i.e. schema listing)
abstracted into outcome parameters.  close() errors are swallowed by the
pool implementations (spec section 4.1), so closing always succeeds and is
recorded as a lifecycle event.  On an open failure the assignment to
self.pool never happens, so the old (closed) pool remains held; on a
schema failure the new pool has already been assigned. -/
def updateDatabasesE (s : App)
    (openRes : Except Unit Nat)
    (schemaRes : Except Unit (List (String × List String))) :
    Except Unit Unit × App × List LifeEvent :=
  match s.selected_connection with
  | none => (Except.ok (), s, [])
  | some _conn =>
    let closes : List LifeEvent :=
      match s.pool with
      | some a => [LifeEvent.closed a]
      | none => []
    match openRes with
    | Except.error e => (Except.error e, s, closes)
    | Except.ok b =>
      let s1 : App := { s with pool := some b }
      match schemaRes with
      | Except.error e => (Except.error e, s1, closes ++ [LifeEvent.opened b])
      | Except.ok sch =>
        (Except.ok (),
         { s1 with schema_tree := sch, focus := Focus.DabataseList,
                   record_table := RecordTable.initial, tab := Tab.Records },
         closes ++ [LifeEvent.opened b])

/-- Modelled from the spec: the error overlay's event handling — while an
error is displayed it captures all input (e.g. dismiss); it touches no
state beyond its own shown flag. -/
def errorEvent (shown : Bool) (k : Key) : EventState × Bool :=
  if shown then (EventState.Consumed, false) else (EventState.NotConsumed, shown)

/-- Modelled from the spec: the help overlay's event handling — its binding
opens it, and while shown it captures input (dismiss). -/
def helpEvent (cfg : Cfg) (shown : Bool) (k : Key) : EventState × Bool :=
  if shown then (EventState.Consumed, false)
  else if k = cfg.helpKey then (EventState.Consumed, true)
  else (EventState.NotConsumed, shown)

/-- Modelled from the spec: the tab component cycles Records → Sql →
Properties on its global binding. -/
def tabEvent (cfg : Cfg) (t : Tab) (k : Key) : EventState × Tab :=
  if k = cfg.tabKey then
    (EventState.Consumed,
     match t with
     | Tab.Records => Tab.Sql
     | Tab.Sql => Tab.Properties
     | Tab.Properties => Tab.Records)
  else (EventState.NotConsumed, t)

/-- Modelled from the spec: the record table component's own event
handling.  Scroll keys move the selection and report not-consumed, so that
the app-level scroll-triggered pagination in components_event runs on the
updated selection; the filter key focuses the text filter; while the
filter is focused every key except confirm is captured as filter input
(confirm is handled at the app level, src/src/app.rs line 258). -/
def rt_event (cfg : Cfg) (rt : RecordTable) (k : Key) : EventState × RecordTable :=
  if rt.filter_focused then
    if k = cfg.key_config.enter then (EventState.NotConsumed, rt)
    else (EventState.Consumed, { rt with filter := rt.filter ++ [k] })
  else if k = cfg.filterKey then
    (EventState.Consumed, { rt with filter_focused := true })
  else if k = cfg.scrollDown then
    (EventState.NotConsumed,
     { rt with selected_row :=
        match rt.selected_row with
        | none => if rt.rows.isEmpty then none else some 0
        | some i => some (min (i + 1) (rt.rows.length - 1)) })
  else if k = cfg.scrollUp then
    (EventState.NotConsumed,
     { rt with selected_row :=
        match rt.selected_row with
        | none => if rt.rows.isEmpty then none else some 0
        | some i => some (i - 1) })
  else (EventState.NotConsumed, rt)

/-- Modelled from the spec: RecordTableComponent::update — populate Header
and Rows from a fetch result, select the first row if any, and set
end-of-data iff the page was non-full (spec section 4.3). -/
def rt_update (cfg : Cfg) (rt : RecordTable)
    (records : List (List String)) (headers : List String) : RecordTable :=
  { rt with rows := records, headers := headers,
            selected_row := if records.isEmpty then none else some 0,
            eod := decide (records.length < cfg.limit) }

/-- The record-table filter argument built at the get_records call sites
(src/src/app.rs lines 175-179 and 281-285): None when the input is empty. -/
def filterArg (rt : RecordTable) : Option (List Key) :=
  if rt.filter.isEmpty then none else some rt.filter

/-- update_record_table (src/src/app.rs lines 165-186): refetch at offset 0
with the current filter for the table selected in the tree. -/
def updateRecordTable (cfg : Cfg) (s : App) : App × List FetchReq :=
  match s.selected_table with
  | none => (s, [])
  | some (database, table) =>
    let flt := filterArg s.record_table
    let r := cfg.getRecords database table 0 flt
    ({ s with record_table := rt_update cfg s.record_table r.2 r.1 },
     [⟨database, table, 0, flt⟩])

/-- The Focus::Table / Tab::Records arm of components_event
(src/src/app.rs lines 247-296): the record table's own handling, the copy
branch (external clipboard, no core state change), the filter-confirm
branch, the end-of-data early consume, and the scroll-triggered pagination
with the selected index cast to u16 as offset. -/
def recordsArm (cfg : Cfg) (s : App) (k : Key) : Out :=
  let e1 := rt_event cfg s.record_table k
  let s1 : App := { s with record_table := e1.2 }
  if e1.1.is_consumed then ⟨EventState.Consumed, s1, [], []⟩
  else
    let step2 : App × List FetchReq :=
      if k = cfg.key_config.enter ∧ e1.2.filter_focused then
        updateRecordTable cfg
          { s1 with record_table := { e1.2 with filter_focused := false } }
      else (s1, [])
    let s2 := step2.1
    if s2.record_table.eod then ⟨EventState.Consumed, s2, step2.2, []⟩
    else
      match s2.record_table.selected_row with
      | some index =>
        if (index + 1) % cfg.limit = 0 then
          match s2.selected_table with
          | some (database, table) =>
            let flt := filterArg s2.record_table
            let off := index % 65536
            let r := cfg.getRecords database table off flt
            let s3 : App :=
              if r.2.isEmpty then
                { s2 with record_table := { s2.record_table with eod := true } }
              else
                { s2 with record_table :=
                    { s2.record_table with rows := s2.record_table.rows ++ r.2 } }
            ⟨EventState.NotConsumed, s3, step2.2 ++ [⟨database, table, off, flt⟩], []⟩
          | none => ⟨EventState.NotConsumed, s2, step2.2, []⟩
        else ⟨EventState.NotConsumed, s2, step2.2, []⟩
      | none => ⟨EventState.NotConsumed, s2, step2.2, []⟩

/-- The per-focus arm of components_event (src/src/app.rs lines 210-315).
Panels outside src consume exactly the keys listed for them in cfg;
the connection switch in the unified step always succeeds, using
cfg.newAdapter and cfg.schemaOf (failing switches are modelled by
updateDatabasesE directly). -/
def focusArm (cfg : Cfg) (s : App) (k : Key) : Out :=
  match s.focus with
  | Focus.ConnectionList =>
    if cfg.connectionsKeys.contains k then ⟨EventState.Consumed, s, [], []⟩
    else if k = cfg.key_config.enter then
      let r := updateDatabasesE s (Except.ok cfg.newAdapter) (Except.ok cfg.schemaOf)
      ⟨EventState.Consumed, r.2.1, [], r.2.2⟩
    else ⟨EventState.NotConsumed, s, [], []⟩
  | Focus.DabataseList =>
    if cfg.databasesKeys.contains k then ⟨EventState.Consumed, s, [], []⟩
    else if k = cfg.key_config.enter ∧ s.tree_focused then
      match s.selected_table with
      | some (database, table) =>
        let s1 : App := { s with record_table := RecordTable.initial }
        let r := cfg.getRecords database table 0 none
        ⟨EventState.Consumed,
         { s1 with record_table := rt_update cfg s1.record_table r.2 r.1,
                   properties_for := some (database, table),
                   focus := Focus.Table },
         [⟨database, table, 0, none⟩], []⟩
      | none => ⟨EventState.Consumed, s, [], []⟩
    else ⟨EventState.NotConsumed, s, [], []⟩
  | Focus.Table =>
    match s.tab with
    | Tab.Records => recordsArm cfg s k
    | Tab.Sql =>
      if cfg.sqlKeys.contains k then ⟨EventState.Consumed, s, [], []⟩
      else ⟨EventState.NotConsumed, s, [], []⟩
    | Tab.Properties =>
      if cfg.propertiesKeys.contains k then ⟨EventState.Consumed, s, [], []⟩
      else ⟨EventState.NotConsumed, s, [], []⟩

/-- extend_or_shorten_widget_width (src/src/app.rs lines 324-344) acting on
the u16 left_main_chunk_percentage: narrowing saturates at 0 then is
floored at 15, widening adds 5 with u16 wrap-around then is capped at 70. -/
def extend_or_shorten_widget_width (cfg : Cfg) (ratio : Nat) (k : Key) :
    EventState × Nat :=
  if k = cfg.key_config.extend_or_shorten_widget_width_to_left then
    (EventState.Consumed, max (ratio - 5) 15)
  else if k = cfg.key_config.extend_or_shorten_widget_width_to_right then
    (EventState.Consumed, min ((ratio + 5) % 65536) 70)
  else (EventState.NotConsumed, ratio)

/-- components_event (src/src/app.rs lines 201-322): error overlay first,
then the help overlay except under ConnectionList focus, then the arm for
the current focus (which returns on consumption), then the global
layout-resize bindings. -/
def componentsEvent (cfg : Cfg) (s : App) (k : Key) : Out :=
  if s.error_shown then
    ⟨EventState.Consumed, { s with error_shown := (errorEvent s.error_shown k).2 }, [], []⟩
  else
    let h := helpEvent cfg s.help_shown k
    if s.focus ≠ Focus.ConnectionList ∧ h.1.is_consumed then
      ⟨EventState.Consumed, { s with help_shown := h.2 }, [], []⟩
    else
      let o := focusArm cfg s k
      if o.es.is_consumed then o
      else
        let ext := extend_or_shorten_widget_width cfg o.app.left_main_chunk_percentage k
        if ext.1.is_consumed then
          ⟨EventState.Consumed, { o.app with left_main_chunk_percentage := ext.2 },
           o.fetches, o.life⟩
        else ⟨EventState.NotConsumed, o.app, o.fetches, o.life⟩

/-- move_focus (src/src/app.rs lines 346-375): the focus-connections
binding is unconditional within this function; then tab cycling; then the
per-focus movement bindings. -/
def move_focus (cfg : Cfg) (s : App) (k : Key) : EventState × App :=
  if k = cfg.key_config.focus_connections then
    (EventState.Consumed, { s with focus := Focus.ConnectionList })
  else
    let t := tabEvent cfg s.tab k
    let s1 : App := { s with tab := t.2 }
    if t.1.is_consumed then (EventState.Consumed, s1)
    else
      match s1.focus with
      | Focus.ConnectionList =>
        if k = cfg.key_config.enter then
          (EventState.Consumed, { s1 with focus := Focus.DabataseList })
        else (EventState.NotConsumed, s1)
      | Focus.DabataseList =>
        if k = cfg.key_config.focus_right ∧ s1.tree_focused then
          (EventState.Consumed, { s1 with focus := Focus.Table })
        else (EventState.NotConsumed, s1)
      | Focus.Table =>
        if k = cfg.key_config.focus_left then
          (EventState.Consumed, { s1 with focus := Focus.DabataseList })
        else (EventState.NotConsumed, s1)

/-- event (src/src/app.rs lines 188-199): components_event first,
short-circuiting on consumption, then move_focus. -/
def appEvent (cfg : Cfg) (s : App) (k : Key) : Out :=
  let o := componentsEvent cfg s k
  if o.es.is_consumed then o
  else
    let m := move_focus cfg o.app k
    ⟨m.1, m.2, o.fetches, o.life⟩

/-- Run a sequence of input events, accumulating the issued fetch
requests. -/
def runEvents (cfg : Cfg) (s : App) : List Key → App × List FetchReq
  | [] => (s, [])
  | k :: ks =>
    let o := appEvent cfg s k
    let r := runEvents cfg o.app ks
    (r.1, o.fetches ++ r.2)

/-! ### Concrete instances used by scenario claims and witnesses -/

/-- The 21 rows of the scenario table of spec section 8, property 6. -/
def rows21 : List (List String) := (List.range 21).map (fun i => [toString i])

/-- Modelled from the spec: a backend whose every table has the 21 rows of
rows21 and whose page size is 10 — get_records returns the slice of at
most one page starting at the requested offset (section 4.1: at most the
fixed page size; a short or empty slice past the end). -/
def backend21 (database table : String) (off : Nat) (flt : Option (List Key)) :
    List String × List (List String) :=
  (["id"], (rows21.drop off).take 10)

/-- A concrete key configuration with pairwise distinct keys. -/
def kc10 : KeyConfig :=
  { enter := 1, copy := 2, focus_connections := 3, focus_right := 4,
    focus_left := 5, extend_or_shorten_widget_width_to_left := 6,
    extend_or_shorten_widget_width_to_right := 7 }

/-- A concrete configuration: page size 10, backend21, distinct bindings. -/
def cfg10 : Cfg :=
  { key_config := kc10, limit := 10, filterKey := 8, tabKey := 9,
    helpKey := 10, scrollDown := 11, scrollUp := 12,
    connectionsKeys := [13, 14], databasesKeys := [15, 16],
    sqlKeys := [17], propertiesKeys := [18],
    getRecords := backend21, newAdapter := 100,
    schemaOf := [("db", ["t"])] }

/-- A state with Focus = DabataseList, a live adapter, and table
("db", "t") selected in the tree — about to confirm the table node. -/
def treeState21 : App :=
  { App.initial with
    focus := Focus.DabataseList, pool := some 100,
    selected_connection := some ⟨DbKind.sqlite⟩,
    selected_table := some ("db", "t"), tree_focused := true }

/-- The state right after the initial page load of the 21-row table:
confirming the table node in treeState21 (key 1 = enter). -/
def loaded21 : App := (appEvent cfg10 treeState21 1).app

/-- loaded21 with the selection moved to row index 9 (0-based). -/
def sel9 : App :=
  { loaded21 with
    record_table := { loaded21.record_table with selected_row := some 9 } }

/-- The state after the page-boundary fetch at row 9, selection at 19. -/
def sel19 : App :=
  let a := (appEvent cfg10 sel9 99).app
  { a with record_table := { a.record_table with selected_row := some 19 } }

/-- The state after the page-boundary fetch at row 19, selection at 20. -/
def sel20 : App :=
  let a := (appEvent cfg10 sel19 99).app
  { a with record_table := { a.record_table with selected_row := some 20 } }

/-! ### Helper lemmas about the dispatch pipeline -/

theorem rt_event_eod (cfg : Cfg) (rt : RecordTable) (k : Key) :
    ((rt_event cfg rt k).2).eod = rt.eod := by
  unfold rt_event
  repeat' split
  all_goals rfl

theorem rt_event_rows (cfg : Cfg) (rt : RecordTable) (k : Key) :
    ((rt_event cfg rt k).2).rows = rt.rows := by
  unfold rt_event
  repeat' split
  all_goals rfl

theorem rt_event_ff_of_not_consumed (cfg : Cfg) (rt : RecordTable) (k : Key)
    (h : (rt_event cfg rt k).1 = EventState.NotConsumed) :
    ((rt_event cfg rt k).2).filter_focused = rt.filter_focused := by
  unfold rt_event at h ⊢
  repeat' split
  all_goals simp_all

theorem move_focus_fields (cfg : Cfg) (s : App) (k : Key) :
    ((move_focus cfg s k).2).record_table = s.record_table ∧
    ((move_focus cfg s k).2).pool = s.pool ∧
    ((move_focus cfg s k).2).left_main_chunk_percentage
      = s.left_main_chunk_percentage := by
  unfold move_focus tabEvent
  repeat' split
  all_goals try simp_all [EventState.is_consumed]
  all_goals repeat' split
  all_goals simp_all [EventState.is_consumed]

set_option maxHeartbeats 1600000 in
theorem recordsArm_stable (cfg : Cfg) (s : App) (k : Key) :
    ((recordsArm cfg s k).app).pool = s.pool ∧
    ((recordsArm cfg s k).app).left_main_chunk_percentage
      = s.left_main_chunk_percentage ∧
    ((recordsArm cfg s k).app).focus = s.focus ∧
    (recordsArm cfg s k).life = [] := by
  unfold recordsArm updateRecordTable rt_update
  repeat' split
  all_goals try simp_all [EventState.is_consumed]
  all_goals repeat' split
  all_goals simp_all [EventState.is_consumed]

theorem focusArm_ratio (cfg : Cfg) (s : App) (k : Key) :
    ((focusArm cfg s k).app).left_main_chunk_percentage
      = s.left_main_chunk_percentage := by
  unfold focusArm updateDatabasesE
  repeat' split
  all_goals simp_all [recordsArm_stable, rt_update, RecordTable.initial,
    EventState.is_consumed]

theorem focusArm_not_consumed (cfg : Cfg) (s : App) (k : Key)
    (h : (focusArm cfg s k).es = EventState.NotConsumed) :
    ((focusArm cfg s k).app).pool = s.pool ∧ (focusArm cfg s k).life = [] := by
  unfold focusArm at h ⊢
  repeat' split
  all_goals simp_all [recordsArm_stable, EventState.is_consumed]

theorem appEvent_frame (cfg : Cfg) (s : App) (k : Key) :
    ((appEvent cfg s k).app).record_table
      = ((componentsEvent cfg s k).app).record_table ∧
    ((appEvent cfg s k).app).pool = ((componentsEvent cfg s k).app).pool ∧
    (appEvent cfg s k).fetches = (componentsEvent cfg s k).fetches ∧
    (appEvent cfg s k).life = (componentsEvent cfg s k).life := by
  unfold appEvent
  cases h : (componentsEvent cfg s k).es <;>
    simp [h, EventState.is_consumed, move_focus_fields]

/-- The close events emitted at the start of a switch for a held pool. -/
def closeTrace (p : Option Nat) : List LifeEvent :=
  match p with
  | some a => [LifeEvent.closed a]
  | none => []

/-- A state holding adapter 7 with a connection selected. -/
def sA : App :=
  { App.initial with pool := some 7, selected_connection := some ⟨DbKind.mysql⟩ }

/-! ### Claims -/

/-- C1 (amended): on a failed connection switch the error is returned to
the caller (surfaced, no crash) and the state is otherwise untouched — in
particular Focus, Tab and the record cache are unchanged, so Focus remains
ConnectionList — and the previously held adapter has been closed; but the
rollback of the adapter slot is partial: on an open failure the old
(closed) adapter handle remains held, and on a list_schema failure the
newly opened adapter remains held. -/
theorem claim1_failed_switch (s : App) (c : Connection) (b : Nat)
    (schemaRes : Except Unit (List (String × List String)))
    (hc : s.selected_connection = some c) :
    updateDatabasesE s (Except.error ()) schemaRes
      = (Except.error (), s, closeTrace s.pool) ∧
    updateDatabasesE s (Except.ok b) (Except.error ())
      = (Except.error (), { s with pool := some b },
         closeTrace s.pool ++ [LifeEvent.opened b]) := by
  cases hp : s.pool <;> simp [updateDatabasesE, closeTrace, hc, hp]

/-- C1 witness: the failed-switch theorem evaluated on the concrete state
sA (adapter 7 held, a connection selected) with adapter 8 as the
would-be replacement. -/
theorem claim1_failed_switch_witness :
    updateDatabasesE sA (Except.error ()) (Except.ok [])
      = (Except.error (), sA, [LifeEvent.closed 7]) ∧
    updateDatabasesE sA (Except.ok 8) (Except.error ())
      = (Except.error (), { sA with pool := some 8 },
         [LifeEvent.closed 7, LifeEvent.opened 8]) := by
  have h := claim1_failed_switch sA ⟨DbKind.mysql⟩ 8 (Except.ok []) rfl
  simpa [closeTrace, sA] using h

/-- C1 counterexample: with adapter 7 held, after a switch whose open
fails, an adapter is still held (pool = some 7, not none), refuting "no
adapter is held afterwards"; the call does return the error. -/
theorem claim1_counterexample :
    ((updateDatabasesE sA (Except.error ()) (Except.ok [])).2.1).pool = some 7 ∧
    (some 7 : Option Nat) ≠ none ∧
    (updateDatabasesE sA (Except.error ()) (Except.ok [])).1 = Except.error () := by
  exact ⟨rfl, by decide, rfl⟩

/-- C2 (confirmed): for two consecutive switches, after the first succeeds
and yields adapter b₁, the second switch's lifecycle trace starts with the
close of b₁ and any open event comes strictly after it in the trace; the
single Option-typed pool slot holds at most one adapter at any time. -/
theorem claim2_close_before_open (s : App) (c : Connection) (b₁ : Nat)
    (sch : List (String × List String))
    (openRes₂ : Except Unit Nat)
    (schemaRes₂ : Except Unit (List (String × List String)))
    (hc : s.selected_connection = some c) :
    ((updateDatabasesE s (Except.ok b₁) (Except.ok sch)).2.1).pool = some b₁ ∧
    (updateDatabasesE ((updateDatabasesE s (Except.ok b₁) (Except.ok sch)).2.1)
        openRes₂ schemaRes₂).2.2
      = LifeEvent.closed b₁ ::
          (match openRes₂ with
           | Except.ok b₂ => [LifeEvent.opened b₂]
           | Except.error _ => []) := by
  cases openRes₂ <;> cases schemaRes₂ <;>
    simp [updateDatabasesE, hc, closeTrace]

/-- C2 witness: the close-before-open theorem evaluated on sA with first
adapter 8 and second adapter 9. -/
theorem claim2_close_before_open_witness :
    ((updateDatabasesE sA (Except.ok 8) (Except.ok [])).2.1).pool = some 8 ∧
    (updateDatabasesE ((updateDatabasesE sA (Except.ok 8) (Except.ok [])).2.1)
        (Except.ok 9) (Except.ok [])).2.2
      = [LifeEvent.closed 8, LifeEvent.opened 9] := by
  have h := claim2_close_before_open sA ⟨DbKind.mysql⟩ 8 [] (Except.ok 9)
    (Except.ok []) rfl
  simpa using h

theorem extend_bounds (cfg : Cfg) (k : Key) (x : Nat)
    (h1 : 15 ≤ x) (h2 : x ≤ 70) :
    15 ≤ (extend_or_shorten_widget_width cfg x k).2 ∧
    (extend_or_shorten_widget_width cfg x k).2 ≤ 70 := by
  unfold extend_or_shorten_widget_width
  split
  · refine ⟨?_, ?_⟩ <;> simp <;> omega
  · split
    · have hm : (x + 5) % 65536 = x + 5 := Nat.mod_eq_of_lt (by omega)
      refine ⟨?_, ?_⟩ <;> simp [hm] <;> omega
    · exact ⟨h1, h2⟩

theorem componentsEvent_ratio_bounds (cfg : Cfg) (s : App) (k : Key)
    (h1 : 15 ≤ s.left_main_chunk_percentage)
    (h2 : s.left_main_chunk_percentage ≤ 70) :
    15 ≤ ((componentsEvent cfg s k).app).left_main_chunk_percentage ∧
    ((componentsEvent cfg s k).app).left_main_chunk_percentage ≤ 70 := by
  unfold componentsEvent
  dsimp only
  split
  · exact ⟨h1, h2⟩
  · split
    · exact ⟨h1, h2⟩
    · have hf := focusArm_ratio cfg s k
      split
      · rw [hf]; exact ⟨h1, h2⟩
      · split
        · have := extend_bounds cfg k ((focusArm cfg s k).app).left_main_chunk_percentage
            (by rw [hf]; exact h1) (by rw [hf]; exact h2)
          simpa using this
        · rw [hf]; exact ⟨h1, h2⟩

theorem appEvent_ratio_bounds (cfg : Cfg) (s : App) (k : Key)
    (h1 : 15 ≤ s.left_main_chunk_percentage)
    (h2 : s.left_main_chunk_percentage ≤ 70) :
    15 ≤ ((appEvent cfg s k).app).left_main_chunk_percentage ∧
    ((appEvent cfg s k).app).left_main_chunk_percentage ≤ 70 := by
  have hc := componentsEvent_ratio_bounds cfg s k h1 h2
  unfold appEvent
  cases h : (componentsEvent cfg s k).es <;>
    simp [h, EventState.is_consumed, move_focus_fields] <;> exact hc

theorem runEvents_ratio_bounds (cfg : Cfg) (ks : List Key) (s : App)
    (h1 : 15 ≤ s.left_main_chunk_percentage)
    (h2 : s.left_main_chunk_percentage ≤ 70) :
    15 ≤ ((runEvents cfg s ks).1).left_main_chunk_percentage ∧
    ((runEvents cfg s ks).1).left_main_chunk_percentage ≤ 70 := by
  induction ks generalizing s with
  | nil => exact ⟨h1, h2⟩
  | cons k ks ih =>
    have hs := appEvent_ratio_bounds cfg s k h1 h2
    simpa [runEvents] using ih (appEvent cfg s k).app hs.1 hs.2

/-- C7 (confirmed): the layout ratio starts at 15 (App::new); after any
event sequence it stays within [15, 70] — narrowing is floored at 15,
widening is capped at 70 — and both widen and narrow key events are always
reported as consumed by extend_or_shorten_widget_width. -/
theorem claim7_ratio_bounds :
    App.initial.left_main_chunk_percentage = 15 ∧
    (∀ (cfg : Cfg) (ks : List Key),
       15 ≤ ((runEvents cfg App.initial ks).1).left_main_chunk_percentage ∧
       ((runEvents cfg App.initial ks).1).left_main_chunk_percentage ≤ 70) ∧
    (∀ (cfg : Cfg) (x : Nat),
       (extend_or_shorten_widget_width cfg x
          cfg.key_config.extend_or_shorten_widget_width_to_left).1
         = EventState.Consumed ∧
       (extend_or_shorten_widget_width cfg x
          cfg.key_config.extend_or_shorten_widget_width_to_right).1
         = EventState.Consumed) := by
  refine ⟨rfl, ?_, ?_⟩
  · intro cfg ks
    exact runEvents_ratio_bounds cfg ks App.initial (by norm_num [App.initial])
      (by norm_num [App.initial])
  · intro cfg x
    constructor <;> unfold extend_or_shorten_widget_width <;>
      repeat' split <;> simp_all

/-- A state with an error currently displayed. -/
def sErr : App := { App.initial with error_shown := true }

/-- C8 (confirmed): while an error is displayed, every input event is
consumed at the first dispatch stage (the error overlay), Focus and Tab
are unchanged, and no fetch or adapter lifecycle event occurs. -/
theorem claim8_error_overlay (cfg : Cfg) (s : App) (k : Key)
    (h : s.error_shown = true) :
    (appEvent cfg s k).es = EventState.Consumed ∧
    ((appEvent cfg s k).app).focus = s.focus ∧
    ((appEvent cfg s k).app).tab = s.tab ∧
    (appEvent cfg s k).fetches = [] ∧
    (appEvent cfg s k).life = [] := by
  unfold appEvent componentsEvent
  simp [h, EventState.is_consumed]

/-- C8 witness: the error-overlay theorem evaluated at the concrete state
sErr and the focus-connections key of cfg10. -/
theorem claim8_error_overlay_witness :
    (appEvent cfg10 sErr 3).es = EventState.Consumed ∧
    ((appEvent cfg10 sErr 3).app).focus = sErr.focus ∧
    ((appEvent cfg10 sErr 3).app).tab = sErr.tab ∧
    (appEvent cfg10 sErr 3).fetches = [] ∧
    (appEvent cfg10 sErr 3).life = [] :=
  claim8_error_overlay cfg10 sErr 3 rfl

/-- C3 counterexample: in the 21-row, page-size-10 scenario, the fetch
triggered while row index 9 is selected is at offset 9, not offset 10 as
the claim states; the fetch triggered at row index 19 is at offset 19 and
returns 2 rows (both appended), not 1 row, and does not set end-of-data. -/
theorem claim3_counterexample :
    (appEvent cfg10 sel9 99).fetches = [⟨"db", "t", 9, none⟩] ∧
    (appEvent cfg10 sel9 99).fetches ≠ [⟨"db", "t", 10, none⟩] ∧
    (appEvent cfg10 sel19 99).fetches ≠ [⟨"db", "t", 20, none⟩] ∧
    (appEvent cfg10 sel19 99).app.record_table.eod = false := by
  decide

/-- C3 (amended): table with 21 rows, page size 10, after the initial page
load (10 rows cached).  A key event while row index 9 is selected triggers
exactly one fetch, at offset 9 (the selected index itself), returning 10
rows which are appended (cache grows to 20, duplicating row 9); a key
event while row index 19 is selected triggers exactly one fetch at offset
19 returning 2 rows which are appended (cache grows to 22) without setting
end-of-data; a key event while row index 20 is selected triggers no
further fetch (21 is not a multiple of the page size). -/
theorem claim3_scenario :
    loaded21.record_table.rows.length = 10 ∧
    (appEvent cfg10 sel9 99).fetches = [⟨"db", "t", 9, none⟩] ∧
    (appEvent cfg10 sel9 99).app.record_table.rows.length = 20 ∧
    (appEvent cfg10 sel9 99).app.record_table.eod = false ∧
    (appEvent cfg10 sel19 99).fetches = [⟨"db", "t", 19, none⟩] ∧
    (appEvent cfg10 sel19 99).app.record_table.rows.length = 22 ∧
    (appEvent cfg10 sel19 99).app.record_table.eod = false ∧
    (appEvent cfg10 sel20 99).fetches = [] := by
  decide

/-! ### Characterization of the Records-tab step for a neutral key -/

theorem rt_event_neutral (cfg : Cfg) (rt : RecordTable) (k : Key)
    (hff : rt.filter_focused = false) (hfk : k ≠ cfg.filterKey)
    (hsd : k ≠ cfg.scrollDown) (hsu : k ≠ cfg.scrollUp) :
    rt_event cfg rt k = (EventState.NotConsumed, rt) := by
  simp [rt_event, hff, hfk, hsd, hsu]

theorem recordsArm_neutral_eod (cfg : Cfg) (s : App) (k : Key)
    (hff : s.record_table.filter_focused = false) (hfk : k ≠ cfg.filterKey)
    (hsd : k ≠ cfg.scrollDown) (hsu : k ≠ cfg.scrollUp)
    (heod : s.record_table.eod = true) :
    recordsArm cfg s k = ⟨EventState.Consumed, s, [], []⟩ := by
  simp [recordsArm, rt_event_neutral cfg s.record_table k hff hfk hsd hsu,
    EventState.is_consumed, heod, hff]

theorem recordsArm_neutral_fetch (cfg : Cfg) (s : App) (k : Key) (i : Nat)
    (database table : String)
    (hff : s.record_table.filter_focused = false) (hfk : k ≠ cfg.filterKey)
    (hsd : k ≠ cfg.scrollDown) (hsu : k ≠ cfg.scrollUp)
    (heod : s.record_table.eod = false)
    (hsel : s.record_table.selected_row = some i)
    (hmod : (i + 1) % cfg.limit = 0)
    (htbl : s.selected_table = some (database, table)) :
    recordsArm cfg s k =
      ⟨EventState.NotConsumed,
       (if (cfg.getRecords database table (i % 65536)
              (filterArg s.record_table)).2.isEmpty then
          { s with record_table := { s.record_table with eod := true } }
        else
          { s with record_table :=
              { s.record_table with rows := s.record_table.rows ++
                  (cfg.getRecords database table (i % 65536)
                    (filterArg s.record_table)).2 } }),
       [⟨database, table, i % 65536, filterArg s.record_table⟩], []⟩ := by
  simp [recordsArm, rt_event_neutral cfg s.record_table k hff hfk hsd hsu,
    EventState.is_consumed, heod, hff, hsel, hmod, htbl]

theorem recordsArm_neutral_nofetch (cfg : Cfg) (s : App) (k : Key) (i : Nat)
    (hff : s.record_table.filter_focused = false) (hfk : k ≠ cfg.filterKey)
    (hsd : k ≠ cfg.scrollDown) (hsu : k ≠ cfg.scrollUp)
    (heod : s.record_table.eod = false)
    (hsel : s.record_table.selected_row = some i)
    (hmod : (i + 1) % cfg.limit ≠ 0) :
    recordsArm cfg s k = ⟨EventState.NotConsumed, s, [], []⟩ := by
  simp [recordsArm, rt_event_neutral cfg s.record_table k hff hfk hsd hsu,
    EventState.is_consumed, heod, hff, hsel, hmod]

theorem componentsEvent_records (cfg : Cfg) (s : App) (k : Key)
    (herr : s.error_shown = false) (hh : s.help_shown = false)
    (hhk : k ≠ cfg.helpKey) (hfo : s.focus = Focus.Table)
    (hta : s.tab = Tab.Records) :
    ((componentsEvent cfg s k).app).record_table
      = ((recordsArm cfg s k).app).record_table ∧
    (componentsEvent cfg s k).fetches = (recordsArm cfg s k).fetches := by
  have hfa : focusArm cfg s k = recordsArm cfg s k := by
    unfold focusArm
    rw [hfo, hta]
  unfold componentsEvent
  rw [herr]
  simp only [Bool.false_eq_true, if_false, hfa]
  simp only [helpEvent, hh, if_false, hhk, Bool.false_eq_true,
    EventState.is_consumed]
  simp only [ite_false, and_false, if_false]
  cases ho : (recordsArm cfg s k).es <;>
    simp [ho, EventState.is_consumed] <;> split <;> simp

/-- C4 (amended): for a key event handled in the Records tab that is not a
component binding (so the selection is unchanged), a next-page fetch is
issued exactly when end-of-data is not set and the 1-based position of the
selected row is an exact multiple of the page size; the fetch uses
offset = selected_row_index mod 2^16 (the index is cast to u16) and the
current filter; a non-empty result is appended to the cached rows and the
cached header is untouched; an empty result sets end-of-data and leaves
the rows unchanged; otherwise no fetch is issued. -/
theorem claim4_pagination (cfg : Cfg) (s : App) (k : Key) (i : Nat)
    (database table : String)
    (herr : s.error_shown = false) (hh : s.help_shown = false)
    (hhk : k ≠ cfg.helpKey) (hfo : s.focus = Focus.Table)
    (hta : s.tab = Tab.Records)
    (hff : s.record_table.filter_focused = false) (hfk : k ≠ cfg.filterKey)
    (hsd : k ≠ cfg.scrollDown) (hsu : k ≠ cfg.scrollUp)
    (hsel : s.record_table.selected_row = some i)
    (htbl : s.selected_table = some (database, table)) :
    ((s.record_table.eod = false ∧ (i + 1) % cfg.limit = 0) →
       (appEvent cfg s k).fetches
         = [⟨database, table, i % 65536, filterArg s.record_table⟩] ∧
       (((cfg.getRecords database table (i % 65536)
            (filterArg s.record_table)).2 = [] →
          ((appEvent cfg s k).app).record_table.eod = true ∧
          ((appEvent cfg s k).app).record_table.rows = s.record_table.rows) ∧
        ((cfg.getRecords database table (i % 65536)
            (filterArg s.record_table)).2 ≠ [] →
          ((appEvent cfg s k).app).record_table.rows
            = s.record_table.rows ++
                (cfg.getRecords database table (i % 65536)
                  (filterArg s.record_table)).2 ∧
          ((appEvent cfg s k).app).record_table.eod = false ∧
          ((appEvent cfg s k).app).record_table.headers
            = s.record_table.headers))) ∧
    ((s.record_table.eod = true ∨ (i + 1) % cfg.limit ≠ 0) →
       (appEvent cfg s k).fetches = []) := by
  obtain ⟨hart, _, haf, _⟩ := appEvent_frame cfg s k
  obtain ⟨hcrt, hcf⟩ := componentsEvent_records cfg s k herr hh hhk hfo hta
  constructor
  · rintro ⟨heod, hmod⟩
    have hra := recordsArm_neutral_fetch cfg s k i database table
      hff hfk hsd hsu heod hsel hmod htbl
    rw [hart, hcrt, haf, hcf, hra]
    refine ⟨rfl, ?_, ?_⟩
    · intro he
      simp [he, heod]
    · intro he
      simp [List.isEmpty_iff, he, heod]
  · intro hside
    rcases hside with heod | hmod
    · have hra := recordsArm_neutral_eod cfg s k hff hfk hsd hsu heod
      rw [haf, hcf, hra]
    · by_cases heod : s.record_table.eod = true
      · have hra := recordsArm_neutral_eod cfg s k hff hfk hsd hsu heod
        rw [haf, hcf, hra]
      · have hra := recordsArm_neutral_nofetch cfg s k i hff hfk hsd hsu
          (by simpa using heod) hsel hmod
        rw [haf, hcf, hra]

/-- C4 witness: the pagination theorem evaluated at the concrete state
sel9 (21-row table, page size 10, selection on row 9) with the neutral
key 99: the trigger condition holds and exactly one fetch at offset 9 is
issued. -/
theorem claim4_pagination_witness :
    (sel9.record_table.eod = false ∧ (9 + 1) % cfg10.limit = 0) ∧
    (appEvent cfg10 sel9 99).fetches
      = [⟨"db", "t", 9 % 65536, filterArg sel9.record_table⟩] := by
  have h := claim4_pagination cfg10 sel9 99 9 "db" "t" rfl rfl (by decide)
    rfl rfl rfl (by decide) (by decide) (by decide) rfl rfl
  exact ⟨⟨rfl, rfl⟩, (h.1 ⟨rfl, rfl⟩).1⟩

/-- A Records-tab state whose selected row index is 65539 (≥ 2^16). -/
def s65539 : App :=
  { loaded21 with
    record_table := { loaded21.record_table with selected_row := some 65539 } }

/-- C4 counterexample: with row index 65539 selected (a page boundary for
page size 10), the single fetch issued has offset 3 = 65539 mod 2^16, not
offset 65539 as "offset = selected_row_index" claims. -/
theorem claim4_counterexample :
    (appEvent cfg10 s65539 99).fetches = [⟨"db", "t", 3, none⟩] ∧
    (∀ f ∈ (appEvent cfg10 s65539 99).fetches, f.offset ≠ 65539) := by
  decide

/-- A Records-tab state whose selected row index is 65599. -/
def s65599 : App :=
  { loaded21 with
    record_table := { loaded21.record_table with selected_row := some 65599 } }

/-- C10 (confirmed): the scroll-triggered pagination fetch passes the
0-based selected index cast to u16, i.e. offset = index mod 2^16, and the
offset equals the index exactly when the index is below 2^16. -/
theorem claim10_u16_offset (cfg : Cfg) (s : App) (k : Key) (i : Nat)
    (database table : String)
    (herr : s.error_shown = false) (hh : s.help_shown = false)
    (hhk : k ≠ cfg.helpKey) (hfo : s.focus = Focus.Table)
    (hta : s.tab = Tab.Records)
    (hff : s.record_table.filter_focused = false) (hfk : k ≠ cfg.filterKey)
    (hsd : k ≠ cfg.scrollDown) (hsu : k ≠ cfg.scrollUp)
    (hsel : s.record_table.selected_row = some i)
    (htbl : s.selected_table = some (database, table))
    (heod : s.record_table.eod = false)
    (hmod : (i + 1) % cfg.limit = 0) :
    (appEvent cfg s k).fetches
      = [⟨database, table, i % 65536, filterArg s.record_table⟩] ∧
    (i % 65536 = i ↔ i < 65536) := by
  obtain ⟨hart, _, haf, _⟩ := appEvent_frame cfg s k
  obtain ⟨hcrt, hcf⟩ := componentsEvent_records cfg s k herr hh hhk hfo hta
  have hra := recordsArm_neutral_fetch cfg s k i database table
    hff hfk hsd hsu heod hsel hmod htbl
  refine ⟨by rw [haf, hcf, hra], ?_, fun h => Nat.mod_eq_of_lt h⟩
  intro h
  have := Nat.mod_lt i (show 0 < 65536 by norm_num)
  omega

/-- C10 witness: at selected index 65599 the fetch offset is 63
(= 65599 mod 2^16), and 65599 is not below 2^16. -/
theorem claim10_u16_offset_witness :
    (appEvent cfg10 s65599 99).fetches
      = [⟨"db", "t", 65599 % 65536, filterArg s65599.record_table⟩] ∧
    (65599 % 65536 = 65599 ↔ 65599 < 65536) ∧
    65599 % 65536 = 63 := by
  have h := claim10_u16_offset cfg10 s65599 99 65599 "db" "t" rfl rfl
    (by decide) rfl rfl rfl (by decide) (by decide) (by decide) rfl rfl rfl
    (by decide)
  exact ⟨h.1, h.2, by norm_num⟩

/-! ### End-of-data monotonicity -/

/-- Whether the help overlay would consume this key in this state. -/
def helpConsumes (cfg : Cfg) (s : App) (k : Key) : Bool :=
  ((helpEvent cfg s.help_shown k).1).is_consumed

/-- The events that perform a full reset of the record page cache: a
connection switch (ConnectionList focus, confirm with a connection
selected), select_table (DabataseList focus, confirm on a focused tree
with a table selected), and a filter confirm (Records tab, confirm while
the filter is focused) — each reachable only when no earlier dispatch
stage consumes the event. -/
def resetEvent (cfg : Cfg) (s : App) (k : Key) : Prop :=
  s.error_shown = false ∧
  ((s.focus = Focus.ConnectionList ∧ cfg.connectionsKeys.contains k = false ∧
      k = cfg.key_config.enter ∧ s.selected_connection.isSome = true) ∨
   (s.focus = Focus.DabataseList ∧ helpConsumes cfg s k = false ∧
      cfg.databasesKeys.contains k = false ∧ k = cfg.key_config.enter ∧
      s.tree_focused = true ∧ s.selected_table.isSome = true) ∨
   (s.focus = Focus.Table ∧ s.tab = Tab.Records ∧
      helpConsumes cfg s k = false ∧ k = cfg.key_config.enter ∧
      s.record_table.filter_focused = true ∧ s.selected_table.isSome = true))

instance resetEvent.decidable (cfg : Cfg) (s : App) (k : Key) :
    Decidable (resetEvent cfg s k) := by
  unfold resetEvent
  infer_instance

/-- No event along the run, evaluated in the state it is dispatched in, is
a cache-reset event. -/
def noResetAlong (cfg : Cfg) (s : App) : List Key → Prop
  | [] => True
  | k :: ks => ¬ resetEvent cfg s k ∧ noResetAlong cfg (appEvent cfg s k).app ks

instance noResetAlong.decidable (cfg : Cfg) :
    ∀ (ks : List Key) (s : App), Decidable (noResetAlong cfg s ks)
  | [], _ => by unfold noResetAlong; infer_instance
  | k :: ks, s => by
    unfold noResetAlong
    have := noResetAlong.decidable cfg ks (appEvent cfg s k).app
    infer_instance

theorem eod_step (cfg : Cfg) (s : App) (k : Key)
    (he : s.record_table.eod = true) (hr : ¬ resetEvent cfg s k) :
    ((appEvent cfg s k).app).record_table.eod = true ∧
    (appEvent cfg s k).fetches = [] := by
  obtain ⟨hart, _, haf, _⟩ := appEvent_frame cfg s k
  rw [hart, haf]
  unfold componentsEvent
  dsimp only
  split
  · exact ⟨he, rfl⟩
  case isFalse herr =>
    split
    · exact ⟨he, rfl⟩
    case isFalse hhelp =>
      have herr' : s.error_shown = false := by
        simpa using herr
      have hfa : ((focusArm cfg s k).app).record_table.eod = true ∧
          (focusArm cfg s k).fetches = [] := by
        unfold focusArm
        cases hf : s.focus
        case ConnectionList =>
          dsimp only
          split
          · exact ⟨he, rfl⟩
          case isFalse hcont =>
            split
            case isTrue hk =>
              cases hsc : s.selected_connection with
              | none => simp [updateDatabasesE, hsc, he]
              | some c =>
                exact absurd ⟨herr', Or.inl ⟨hf, by simpa using hcont, hk,
                  by simp [hsc]⟩⟩ hr
            case isFalse => exact ⟨he, rfl⟩
        case DabataseList =>
          have hne : s.focus ≠ Focus.ConnectionList := by rw [hf]; decide
          have hhc : helpConsumes cfg s k = false := by
            unfold helpConsumes
            cases hb : ((helpEvent cfg s.help_shown k).1).is_consumed with
            | false => rfl
            | true => exact absurd ⟨hne, hb⟩ hhelp
          dsimp only
          split
          · exact ⟨he, rfl⟩
          case isFalse hcont =>
            split
            case isTrue hk =>
              cases hst : s.selected_table with
              | none => exact ⟨he, rfl⟩
              | some p =>
                exact absurd ⟨herr', Or.inr (Or.inl ⟨hf, hhc,
                  by simpa using hcont, hk.1, by simpa using hk.2,
                  by simp [hst]⟩)⟩ hr
            case isFalse => exact ⟨he, rfl⟩
        case Table =>
          have hne : s.focus ≠ Focus.ConnectionList := by rw [hf]; decide
          have hhc : helpConsumes cfg s k = false := by
            unfold helpConsumes
            cases hb : ((helpEvent cfg s.help_shown k).1).is_consumed with
            | false => rfl
            | true => exact absurd ⟨hne, hb⟩ hhelp
          cases ht : s.tab
          case Sql =>
            dsimp only
            split
            · exact ⟨he, rfl⟩
            · exact ⟨he, rfl⟩
          case Properties =>
            dsimp only
            split
            · exact ⟨he, rfl⟩
            · exact ⟨he, rfl⟩
          case Records =>
            unfold recordsArm
            dsimp only
            cases hce : (rt_event cfg s.record_table k).1
            case Consumed =>
              have heq := rt_event_eod cfg s.record_table k
              simp [hce, EventState.is_consumed, heq, he]
            case NotConsumed =>
              simp only [hce, EventState.is_consumed, Bool.false_eq_true,
                if_false]
              have hff := rt_event_ff_of_not_consumed cfg s.record_table k hce
              by_cases hcf : (k = cfg.key_config.enter ∧
                  ((rt_event cfg s.record_table k).2).filter_focused = true)
              · cases hst : s.selected_table with
                | none =>
                  rw [if_pos hcf]
                  simp only [updateRecordTable, hst]
                  have heod2 := rt_event_eod cfg s.record_table k
                  simp [heod2, he]
                | some p =>
                  exact absurd ⟨herr', Or.inr (Or.inr ⟨hf, ht, hhc, hcf.1,
                    by rw [← hff]; exact hcf.2, by simp [hst]⟩)⟩ hr
              · rw [if_neg hcf]
                have heod2 := rt_event_eod cfg s.record_table k
                simp [heod2, he]
      cases ho : (focusArm cfg s k).es
      case Consumed =>
        simpa [ho, EventState.is_consumed] using hfa
      case NotConsumed =>
        simp only [ho, EventState.is_consumed, Bool.false_eq_true, if_false]
        split
        · exact ⟨hfa.1, hfa.2⟩
        · exact hfa

/-- C5 (amended): end-of-data is monotonic — once true it stays true and
no further row fetch is issued, for any sequence of input events that
contains no full-reset event; the full-reset events are exactly a
confirmed table selection, a filter confirm, and a successful connection
switch (which also resets the whole record cache). -/
theorem claim5_eod_monotone (cfg : Cfg) (s : App) (ks : List Key)
    (he : s.record_table.eod = true) (hn : noResetAlong cfg s ks) :
    ((runEvents cfg s ks).1).record_table.eod = true ∧
    (runEvents cfg s ks).2 = [] := by
  induction ks generalizing s with
  | nil => exact ⟨he, rfl⟩
  | cons k ks ih =>
    have hstep := eod_step cfg s k he hn.1
    have hrest := ih (appEvent cfg s k).app hstep.1 hn.2
    simp [runEvents, hstep.2, hrest.1, hrest.2]

/-- A state with end-of-data set and a connection selected, under
ConnectionList focus. -/
def sEodConn : App :=
  { App.initial with
    selected_connection := some ⟨DbKind.sqlite⟩,
    record_table := { RecordTable.initial with eod := true } }

/-- C5 counterexample: a successful connection switch (confirm under
ConnectionList focus) clears the end-of-data flag although no new table is
selected and the filter is unchanged — so "not cleared except by a new
table selection or a filter change" is refuted as stated. -/
theorem claim5_counterexample :
    sEodConn.record_table.eod = true ∧
    sEodConn.selected_table = none ∧
    ((appEvent cfg10 sEodConn 1).app).record_table.eod = false ∧
    ((appEvent cfg10 sEodConn 1).app).selected_table = none ∧
    ((appEvent cfg10 sEodConn 1).app).record_table.filter
      = sEodConn.record_table.filter := by
  decide

/-- The 21-row scenario state with end-of-data forced true. -/
def sEod : App :=
  { loaded21 with
    record_table := { loaded21.record_table with eod := true } }

/-- C5 witness: the monotonicity theorem evaluated on sEod and a concrete
reset-free event sequence. -/
theorem claim5_eod_monotone_witness :
    sEod.record_table.eod = true ∧ noResetAlong cfg10 sEod [99, 5, 11, 3] ∧
    ((runEvents cfg10 sEod [99, 5, 11, 3]).1).record_table.eod = true ∧
    (runEvents cfg10 sEod [99, 5, 11, 3]).2 = [] := by
  refine ⟨by decide, by decide, ?_, ?_⟩
  · exact (claim5_eod_monotone cfg10 sEod [99, 5, 11, 3] (by decide)
      (by decide)).1
  · exact (claim5_eod_monotone cfg10 sEod [99, 5, 11, 3] (by decide)
      (by decide)).2

/-- C6 (confirmed): confirming a table node in the tree always performs a
full reset first — the resulting cache is exactly the fetch result, with
the filter cleared — and then fetches at offset 0 with the current
(post-reset, hence empty) filter, populating Header and Rows from the
result; end-of-data is set iff the first page is non-full, and focus moves
to the data view. -/
theorem claim6_select_table (cfg : Cfg) (s : App) (k : Key)
    (database table : String)
    (herr : s.error_shown = false) (hh : s.help_shown = false)
    (hhk : k ≠ cfg.helpKey) (hfo : s.focus = Focus.DabataseList)
    (hdb : cfg.databasesKeys.contains k = false)
    (hk : k = cfg.key_config.enter) (htf : s.tree_focused = true)
    (hst : s.selected_table = some (database, table)) :
    (appEvent cfg s k).es = EventState.Consumed ∧
    (appEvent cfg s k).fetches = [⟨database, table, 0, none⟩] ∧
    ((appEvent cfg s k).app).record_table.rows
      = (cfg.getRecords database table 0 none).2 ∧
    ((appEvent cfg s k).app).record_table.headers
      = (cfg.getRecords database table 0 none).1 ∧
    ((appEvent cfg s k).app).record_table.filter = [] ∧
    ((appEvent cfg s k).app).record_table.filter_focused = false ∧
    ((appEvent cfg s k).app).record_table.eod
      = decide ((cfg.getRecords database table 0 none).2.length < cfg.limit) ∧
    ((appEvent cfg s k).app).focus = Focus.Table ∧
    ((appEvent cfg s k).app).properties_for = some (database, table) := by
  subst hk
  have hdb' : cfg.key_config.enter ∉ cfg.databasesKeys := by
    simpa using hdb
  unfold appEvent componentsEvent focusArm
  simp [herr, hh, hhk, hfo, hdb', htf, hst, helpEvent,
    EventState.is_consumed, rt_update, RecordTable.initial]

/-- C6 witness: the select_table theorem evaluated on treeState21 with the
confirm key of cfg10. -/
theorem claim6_select_table_witness :
    (appEvent cfg10 treeState21 1).es = EventState.Consumed ∧
    (appEvent cfg10 treeState21 1).fetches = [⟨"db", "t", 0, none⟩] ∧
    ((appEvent cfg10 treeState21 1).app).record_table.rows
      = (cfg10.getRecords "db" "t" 0 none).2 ∧
    ((appEvent cfg10 treeState21 1).app).record_table.headers
      = (cfg10.getRecords "db" "t" 0 none).1 ∧
    ((appEvent cfg10 treeState21 1).app).record_table.filter = [] ∧
    ((appEvent cfg10 treeState21 1).app).record_table.filter_focused = false ∧
    ((appEvent cfg10 treeState21 1).app).record_table.eod
      = decide ((cfg10.getRecords "db" "t" 0 none).2.length < cfg10.limit) ∧
    ((appEvent cfg10 treeState21 1).app).focus = Focus.Table ∧
    ((appEvent cfg10 treeState21 1).app).properties_for = some ("db", "t") :=
  claim6_select_table cfg10 treeState21 1 "db" "t" rfl rfl (by decide) rfl
    (by decide) rfl rfl rfl

theorem componentsEvent_pool_life (cfg : Cfg) (s : App) (k : Key) :
    (((componentsEvent cfg s k).app).pool = s.pool ∧
     (componentsEvent cfg s k).life = []) ∨
    (componentsEvent cfg s k).es = EventState.Consumed := by
  unfold componentsEvent
  dsimp only
  split
  · right; rfl
  · split
    · right; rfl
    · cases ho : (focusArm cfg s k).es
      case Consumed => right; simp [ho, EventState.is_consumed]
      case NotConsumed =>
        have hp := focusArm_not_consumed cfg s k ho
        simp only [ho, EventState.is_consumed, Bool.false_eq_true, if_false]
        split
        · exact Or.inl ⟨hp.1, hp.2⟩
        · exact Or.inl ⟨hp.1, hp.2⟩

/-- C9 (amended): an input event matching the focus-connections binding
sets Focus = ConnectionList and closes no adapter (the pool is untouched
and no lifecycle event occurs) whenever the event reaches the
focus-movement stage, i.e. whenever components_event does not consume it;
the transition is not unconditional from every state (see the
counterexample). -/
theorem claim9_focus_connections (cfg : Cfg) (s : App) (k : Key)
    (hk : k = cfg.key_config.focus_connections)
    (hnc : (componentsEvent cfg s k).es = EventState.NotConsumed) :
    (appEvent cfg s k).es = EventState.Consumed ∧
    ((appEvent cfg s k).app).focus = Focus.ConnectionList ∧
    ((appEvent cfg s k).app).pool = s.pool ∧
    (appEvent cfg s k).life = [] := by
  subst hk
  rcases componentsEvent_pool_life cfg s cfg.key_config.focus_connections with
    ⟨hp, hl⟩ | hcons
  · unfold appEvent
    simp [hnc, EventState.is_consumed, move_focus, hp, hl]
  · rw [hnc] at hcons
    exact absurd hcons (by decide)

/-- C9 witness: the focus-connections theorem evaluated on treeState21
(DabataseList focus) with key 3, which no earlier stage consumes. -/
theorem claim9_focus_connections_witness :
    (appEvent cfg10 treeState21 3).es = EventState.Consumed ∧
    ((appEvent cfg10 treeState21 3).app).focus = Focus.ConnectionList ∧
    ((appEvent cfg10 treeState21 3).app).pool = treeState21.pool ∧
    (appEvent cfg10 treeState21 3).life = [] :=
  claim9_focus_connections cfg10 treeState21 3 rfl (by decide)

/-- C9 counterexample: in a Records-tab state with end-of-data set and no
error displayed, the focus-connections key (3 in cfg10) is consumed by the
Records arm's end-of-data early return, and Focus stays Table instead of
becoming ConnectionList — refuting "from every focus state,
unconditionally". -/
theorem claim9_counterexample :
    sEod.error_shown = false ∧
    sEod.focus = Focus.Table ∧ sEod.tab = Tab.Records ∧
    (appEvent cfg10 sEod 3).es = EventState.Consumed ∧
    ((appEvent cfg10 sEod 3).app).focus = Focus.Table ∧
    Focus.Table ≠ Focus.ConnectionList := by
  decide

end Gobang
